import Mathlib

/-!
Verification development for the tendrl python-sdk telemetry client.

The definitions below are a shallow embedding of the relevant parts of the
repository: `make_message` and `calculate_dynamic_batch_size` from
`src/tendrl/utils/utils.py`, the `SQLiteStorage` offline store from
`src/tendrl/storage.py`, and `Client.publish`, `Client.tether`,
`Client._publish_message`, `Client._publish_messages`,
`Client.check_connection_state` and `Client.process_offline_messages` from
`src/tendrl/client.py`.  Python dictionaries are embedded as ordered
association lists, Python truthiness is made explicit, and exceptional
control flow is embedded with `Except`.
-/

namespace Tendrl

/-- Embedding of the Python values that flow through the client: `None`,
booleans, integers, strings, lists and (string-keyed) dicts. -/
inductive PyVal where
  | none
  | bool (b : Bool)
  | int (n : Int)
  | str (s : String)
  | list (xs : List PyVal)
  | dict (kvs : List (String × PyVal))

/-- Python truthiness (`bool(v)`): `None`, `False`, `0`, `""`, `[]` and
`\x7b\x7d` are falsy, everything else is truthy. -/
def truthy : PyVal → Bool
  | PyVal.none => false
  | PyVal.bool b => b
  | PyVal.int n => n != 0
  | PyVal.str s => s != ""
  | PyVal.list xs => !xs.isEmpty
  | PyVal.dict kvs => !kvs.isEmpty

/-- Python `isinstance(v, (str, dict))`. -/
def isStrOrDict : PyVal → Bool
  | PyVal.str _ => true
  | PyVal.dict _ => true
  | _ => false

/-- Python `isinstance(v, str)`. -/
def isStr : PyVal → Bool
  | PyVal.str _ => true
  | _ => false

/-- Dictionary lookup on the association-list embedding (`d.get(k)`). -/
def lookupKV (kvs : List (String × PyVal)) (k : String) : Option PyVal :=
  match kvs.find? (fun kv => kv.1 == k) with
  | some kv => some kv.2
  | Option.none => Option.none

/-- Dictionary `d.get(k, default)`. -/
def getKV (kvs : List (String × PyVal)) (k : String) (default : PyVal) : PyVal :=
  match lookupKV kvs k with
  | some v => v
  | Option.none => default

/-- The exceptions `make_message` can raise. -/
inductive MsgError where
  | dataTypeError   -- TypeError("Allowed types: ['str', 'dict']")
  | tagsTypeError   -- TypeError("tags must be of type 'str'")
deriving DecidableEq, Repr

/-- Function `make_message` from `src/tendrl/utils/utils.py`.  `tags = []` plays the
role of Python's falsy `tags` (both `None` and `[]`); `timestamp = ""` plays
the role of an absent/falsy timestamp, in which case the current UTC instant
`nowIso` is used.  The final record drops every falsy field
(`\x7bk: v for k, v in m.items() if v\x7d`). -/
def make_message (data : PyVal) (msg_type : String) (tags : List PyVal)
    (entity : String) (timestamp : String) (wait_response : Bool)
    (nowIso : String) : Except MsgError (List (String × PyVal)) :=
  if !isStrOrDict data then
    Except.error MsgError.dataTypeError
  else if !tags.isEmpty && !(tags.all isStr) then
    Except.error MsgError.tagsTypeError
  else
    let context : List (String × PyVal) :=
      (if !tags.isEmpty then [("tags", PyVal.list tags)] else []) ++
      (if wait_response && entity == "" then [("wait", PyVal.bool true)] else [])
    let ts : String := if timestamp == "" then nowIso else timestamp
    let m : List (String × PyVal) :=
      [("msg_type", PyVal.str msg_type),
       ("data", data),
       ("context", PyVal.dict context),
       ("dest", PyVal.str entity),
       ("timestamp", PyVal.str ts)]
    Except.ok (m.filter (fun kv => truthy kv.2))

/-- Whether the formatted message's `context` carries `wait = true`
(`message.get("context", \x7b\x7d).get("wait")` being truthy). -/
def contextHasWait (m : List (String × PyVal)) : Bool :=
  match lookupKV m "context" with
  | some (PyVal.dict c) =>
    match lookupKV c "wait" with
    | some w => truthy w
    | Option.none => false
  | _ => false

/-- Python's `int()` truncation toward zero, on rationals. -/
def pyInt (x : ℚ) : ℤ :=
  if 0 ≤ x then ⌊x⌋ else ⌈x⌉

/-- Function `calculate_dynamic_batch_size` from `src/tendrl/utils/utils.py`, with the
float arithmetic embedded over ℚ.  The metrics triple is
(`cpu_usage`, `memory_usage`, `queue_load`). -/
def calculate_dynamic_batch_size (cpu mem qload : ℚ)
    (target_cpu_percent target_mem_percent : ℚ)
    (min_batch_size max_batch_size : ℤ) : ℤ :=
  let cpu_factor : ℚ := max 0 (1 - (cpu / target_cpu_percent) ^ 2)
  let mem_factor : ℚ := max 0 (1 - (mem / target_mem_percent) ^ 2)
  let queue_factor : ℚ := min 1 (qload / 100)
  let total_usage : ℚ := cpu + mem + qload
  let cpu_weight : ℚ := if cpu > 50 then 1/2 else 2/5
  let mem_weight : ℚ := if mem > 50 then 1/2 else 2/5
  let queue_weight : ℚ := if total_usage < 150 then 1/5 else 1/10
  let resource_factor : ℚ :=
    cpu_factor * cpu_weight + mem_factor * mem_weight + queue_factor * queue_weight
  let new_batch_size : ℤ := pyInt ((max_batch_size : ℚ) * resource_factor)
  if cpu < 30 ∧ mem < 30 ∧ qload < 25 then max_batch_size
  else max min_batch_size (min new_batch_size max_batch_size)

/-- The spec's batch-size formula, written from the spec's words (§4.2):
`clamp(floor(maxBatchSize * (cpuFactor*cpuWeight + memFactor*memWeight +
queueFactor*queueWeight)), minBatchSize, maxBatchSize)` with the weights as
given there.  Used only to compare against `calculate_dynamic_batch_size`. -/
def spec_batch_size_formula (cpu mem qload : ℚ)
    (targetCpu targetMem : ℚ) (minBatchSize maxBatchSize : ℤ) : ℤ :=
  let cpuFactor : ℚ := max 0 (1 - (cpu / targetCpu) ^ 2)
  let memFactor : ℚ := max 0 (1 - (mem / targetMem) ^ 2)
  let queueFactor : ℚ := min 1 (qload / 100)
  let totalUsage : ℚ := cpu + mem + qload
  let cpuWeight : ℚ := if cpu > 50 then 1/2 else 2/5
  let memWeight : ℚ := if mem > 50 then 1/2 else 2/5
  let queueWeight : ℚ := if totalUsage < 150 then 1/5 else 1/10
  let newSize : ℤ :=
    ⌊(maxBatchSize : ℚ) *
      (cpuFactor * cpuWeight + memFactor * memWeight + queueFactor * queueWeight)⌋
  max minBatchSize (min newSize maxBatchSize)

/-- The bounded in-memory message queue (`queue.Queue(maxsize=max_queue_size)`).
As in CPython, a `maxsize <= 0` means the queue is unbounded. -/
structure MsgQueue where
  items : List (List (String × PyVal))
  maxsize : Int

/-- `Queue.full()`:  true iff `0 < maxsize` and the queue holds at least
`maxsize` items. -/
def MsgQueue.isFull (q : MsgQueue) : Bool :=
  0 < q.maxsize && q.maxsize ≤ (q.items.length : Int)

/-- The possible outcomes of a `Queue.put` call: the item went in, the call
blocked (a blocking put on a full queue waits until space frees and, with no
consumer draining, never returns), or it raised `queue.Full`. -/
inductive PutOutcome where
  | ok (q' : MsgQueue)
  | blocked
  | raisedFull

/-- Blocking `Queue.put(item)` with CPython's defaults (`block=True`, no timeout), the
call `publish` and `tether` make: on a full queue it blocks; it never raises
`queue.Full`. -/
def MsgQueue.put_call (q : MsgQueue) (item : List (String × PyVal)) :
    PutOutcome :=
  if q.isFull then PutOutcome.blocked
  else PutOutcome.ok { q with items := q.items ++ [item] }

/-- Non-blocking `Queue.put_nowait(item)` — the put the spec's §4.1 describes
(`enqueues non-blockingly into the bounded queue; on a full queue, raises a
capacity error`): on a full queue it raises `queue.Full`.  The repository's
`publish` and `tether` do not call it; it is here to state what the spec asks
for. -/
def MsgQueue.put_nowait (q : MsgQueue) (item : List (String × PyVal)) :
    PutOutcome :=
  if q.isFull then PutOutcome.raisedFull
  else PutOutcome.ok { q with items := q.items ++ [item] }

/-- The synchronous outcomes of `Client.publish`. -/
inductive PublishResult where
  | raisedValueError                         -- `raise ValueError(...)`
  | raisedTypeError (e : MsgError)           -- propagated from `make_message`
  | raisedQueueFull                          -- `queue.Full` escaping `publish` (no handler there)
  | dispatched (m : List (String × PyVal))   -- `wait_response or headless`: immediate `_publish_message`
  | enqueued (q' : MsgQueue)                 -- `self.queue.put(message); return ""`
  | blockedOnFullQueue                       -- a blocking `put` on a full queue never returns

/-- Method `Client.publish` from `src/tendrl/client.py` (lines 234-252): validate the
payload type, build the message with `make_message`, dispatch immediately when
`wait_response` or headless mode asks for it, otherwise `self.queue.put(message)`
(a blocking put, `MsgQueue.put_call`) with no exception handler around it. -/
def publish (q : MsgQueue) (headless : Bool) (msg : PyVal) (tags : List PyVal)
    (entity : String) (wait_response : Bool) (nowIso : String) : PublishResult :=
  if !isStrOrDict msg then PublishResult.raisedValueError
  else
    match make_message msg "publish" tags entity "" wait_response nowIso with
    | Except.error e => PublishResult.raisedTypeError e
    | Except.ok message =>
      if wait_response || headless then PublishResult.dispatched message
      else
        match q.put_call message with
        | PutOutcome.ok q' => PublishResult.enqueued q'
        | PutOutcome.blocked => PublishResult.blockedOnFullQueue
        | PutOutcome.raisedFull => PublishResult.raisedQueueFull

/-- A serialized `data` text column: either the `json.dumps` of a value
(which `json.loads` recovers), or corrupted text on which `json.loads`
raises. -/
inductive Serialized where
  | good (v : PyVal)
  | corrupt

/-- A serialized `tags` text column: the `json.dumps` of a tag list, or
corrupted text on which `json.loads` raises. -/
inductive TagsText where
  | goodTags (ts : List PyVal)
  | corrupt

/-- One row of the offline store's `messages` table
(`id TEXT PRIMARY KEY, data TEXT NOT NULL, tags TEXT, expires_at INTEGER`);
`tags = Option.none` is a NULL column. -/
structure StoredRow where
  id : String
  data : Serialized
  tags : Option TagsText
  expires_at : Int

/-- The offline store (`SQLiteStorage` from `src/tendrl/storage.py`): the
`messages` table in insertion order. -/
structure SQLiteStorage where
  rows : List StoredRow

/-- A fresh, empty offline store. -/
def emptyStorage : SQLiteStorage := { rows := [] }

/-- Method `SQLiteStorage.store(msg_id, data, tags, ttl)`: insert a row with
`expires_at = int(time.time()) + ttl`; the `tags` column is
`json.dumps(tags)` when `tags` is truthy and NULL otherwise.  A duplicate
primary key makes the INSERT raise `sqlite3.IntegrityError`. -/
def SQLiteStorage.store (s : SQLiteStorage) (msg_id : String) (data : PyVal)
    (tags : Option (List PyVal)) (ttl : Int) (now : Int) :
    Except Unit SQLiteStorage :=
  if s.rows.any (fun r => r.id == msg_id) then Except.error ()
  else
    let tagsCol : Option TagsText :=
      match tags with
      | some ts => if ts.isEmpty then Option.none else some (TagsText.goodTags ts)
      | Option.none => Option.none
    Except.ok { rows := s.rows ++
      [{ id := msg_id, data := Serialized.good data, tags := tagsCol,
         expires_at := now + ttl }] }

/-- Method `SQLiteStorage.get_all_messages(limit)`: the non-expired rows
(`expires_at >= now`), ordered by `id` ascending, optionally capped at
`limit` (`limit = none` embeds Python's falsy `limit`). -/
def SQLiteStorage.get_all_messages (s : SQLiteStorage) (limit : Option Nat)
    (now : Int) : List StoredRow :=
  let active := s.rows.filter (fun r => now ≤ r.expires_at)
  let sorted := active.mergeSort (fun a b => a.id ≤ b.id)
  match limit with
  | some l => sorted.take l
  | Option.none => sorted

/-- Method `SQLiteStorage.delete_messages(msg_ids)`: bulk-remove the rows whose id
is in the list (a no-op for `[]`). -/
def SQLiteStorage.delete_messages (s : SQLiteStorage) (msg_ids : List String) :
    SQLiteStorage :=
  if msg_ids.isEmpty then s
  else { rows := s.rows.filter (fun r => !msg_ids.contains r.id) }

/-- Method `SQLiteStorage.get_message_count()`: the number of non-expired rows. -/
def SQLiteStorage.get_message_count (s : SQLiteStorage) (now : Int) : Nat :=
  (s.rows.filter (fun r => now ≤ r.expires_at)).length

/-- Method `SQLiteStorage.cleanup_expired()`: delete the rows with
`expires_at < now` and return how many were deleted, with the store left
behind. -/
def SQLiteStorage.cleanup_expired (s : SQLiteStorage) (now : Int) :
    Nat × SQLiteStorage :=
  let deleted := s.rows.filter (fun r => r.expires_at < now)
  let kept := s.rows.filter (fun r => !(r.expires_at < now))
  (deleted.length, { rows := kept })

/-- The outcomes of one call to a `tether`-wrapped producer, in the
non-headless path.  `returned` carries the producer's result `data` together
with the queue and storage left behind. -/
inductive TetherResult where
  | raisedTypeError (e : MsgError)      -- propagated from `make_message`
  | raisedStoreError                    -- propagated from `storage.store`
  | returned (data : PyVal) (q' : MsgQueue) (storage' : Option SQLiteStorage)
  | blockedOnFullQueue                  -- the blocking `put` never returns

/-- The body of the wrapped function `Client.tether` builds (lines 270-286 of
`src/tendrl/client.py`), non-headless path, after the producer has returned
`data`: `try: self.queue.put(make_message(data, "publish", tags=tags))
except QueueFull: if write_offline and self.storage:
self.storage.store(str(time.time()), data, tags=tags, ttl=db_ttl)`, then
`return data`.  The put is the blocking `MsgQueue.put_call`; the
`except QueueFull` handler below is exactly the source's, reachable only from
the `raisedFull` outcome. -/
def tether_wrapped (q : MsgQueue) (storage : Option SQLiteStorage)
    (write_offline : Bool) (db_ttl : Int) (tags : List PyVal) (data : PyVal)
    (nowIso : String) (now : Int) (timeId : String) : TetherResult :=
  match make_message data "publish" tags "" "" false nowIso with
  | Except.error e => TetherResult.raisedTypeError e
  | Except.ok message =>
    match q.put_call message with
    | PutOutcome.ok q' => TetherResult.returned data q' storage
    | PutOutcome.blocked => TetherResult.blockedOnFullQueue
    | PutOutcome.raisedFull =>
      if write_offline && storage.isSome then
        match storage with
        | some st =>
          match st.store timeId data (some tags) db_ttl now with
          | Except.ok st' => TetherResult.returned data q (some st')
          | Except.error _ => TetherResult.raisedStoreError
        | Option.none => TetherResult.returned data q storage
      else TetherResult.returned data q storage

/-- The kinds of exceptions that can be raised around the transport. -/
inductive ExnKind where
  | socketError         -- socket.error / OSError
  | connectionError     -- ConnectionError
  | timeoutError        -- a timeout
  | otherError          -- any other Exception
deriving DecidableEq, Repr

/-- What one attempted connection probe did before any handler ran. -/
inductive ProbeOutcome where
  | agentConnected            -- agent mode: connect-and-close succeeded
  | httpResp (status : Nat)   -- api mode: the HEAD request returned a response
  | raised (e : ExnKind)      -- the attempt raised

/-- Method `Client.check_connection_state` from `src/tendrl/client.py` (lines
498-518): the probe body runs under
`except (socket.error, ConnectionError, Exception): return False`, so every
raised exception becomes `false` and the function returns a plain boolean to
its caller. -/
def check_connection_state (outcome : ProbeOutcome) : Bool :=
  match outcome with
  | ProbeOutcome.agentConnected => true
  | ProbeOutcome.httpResp status => status < 500
  | ProbeOutcome.raised _ => false

/-- What one HTTP call through `self.client` does: either the server answers
(any status — httpx does not raise on a bad status) or the call raises
`httpx.HTTPError` (connection refused, timeout, ...). -/
inductive HttpOutcome where
  | resp (status : Nat) (body : Option PyVal)
  | raisedHttpError

/-- What `Client._publish_message` returns (it returns in every transport
outcome; note `except httpx.HTTPError as error: return error` hands the
error object back as an ordinary return value). -/
inductive PubMsgReturn where
  | json (v : PyVal)   -- `return response.json()`
  | noneVal            -- fell off the end: `return None`
  | errObj             -- `return error`

/-- Method `Client._publish_message` in api mode (lines 310-350 of
`src/tendrl/client.py`, else branch): POST one message; on a 200 response
with content return its JSON, otherwise return `None`; a raised
`httpx.HTTPError` is caught and returned.  The `Except` layer carries any
exception that would escape the function: for every transport outcome there
is none. -/
def publish_message_api (o : HttpOutcome) : Except ExnKind PubMsgReturn :=
  match o with
  | HttpOutcome.resp status body =>
    match body with
    | some v => if status == 200 then Except.ok (PubMsgReturn.json v)
                else Except.ok PubMsgReturn.noneVal
    | Option.none => Except.ok PubMsgReturn.noneVal
  | HttpOutcome.raisedHttpError => Except.ok PubMsgReturn.errObj

/-- One `_publish_message` call per message of the list, each consuming the
next outcome of the transport stream; a raised exception propagates. -/
def publish_each (stream : Nat → HttpOutcome) (idx : Nat)
    (ms : List (List (String × PyVal))) : Except ExnKind Nat :=
  match ms with
  | [] => Except.ok idx
  | _ :: rest =>
    match publish_message_api (stream idx) with
    | Except.ok _ => publish_each stream (idx + 1) rest
    | Except.error e => Except.error e

/-- The `try`/`except Exception` around the batch-endpoint POST of
`_publish_messages` (lines 372-392 of `src/tendrl/client.py`): one POST to
`/entities/messages` — a response of any status is accepted silently, and a
raised exception is caught and answered by falling back to one
`_publish_message` per batch message. -/
def publish_batch_call (stream : Nat → HttpOutcome) (idx : Nat)
    (batch : List (List (String × PyVal))) : Except ExnKind Nat :=
  match stream idx with
  | HttpOutcome.resp _ _ => Except.ok (idx + 1)
  | HttpOutcome.raisedHttpError => publish_each stream (idx + 1) batch

/-- Method `Client._publish_messages` in api mode (lines 352-396 of
`src/tendrl/client.py`): split off the `context.wait` messages, POST the rest
to the batch endpoint (`publish_batch_call`), then send the `wait` messages
individually.  Returns the next transport-stream index; the `Except` layer
carries any exception escaping the function. -/
def publish_messages_api (stream : Nat → HttpOutcome) (idx : Nat)
    (messages : List (List (String × PyVal))) : Except ExnKind Nat :=
  if messages.isEmpty then Except.ok idx
  else
    match (if (messages.filter (fun m => !contextHasWait m)).isEmpty then
             Except.ok idx
           else
             publish_batch_call stream idx
               (messages.filter (fun m => !contextHasWait m))) with
    | Except.ok i => publish_each stream i (messages.filter contextHasWait)
    | Except.error e => Except.error e

/-- The per-row `try` of `Client.process_offline_messages` (lines 547-561):
`json.loads` the data (and the tags when the column is not NULL) and rebuild
a publishable message with `make_message(data, "publish", tags=tags)`.
`Option.none` is the `except Exception` path (a corrupted row, to be deleted
and not retried). -/
def decodeRow (row : StoredRow) (nowIso : String) :
    Option (List (String × PyVal)) :=
  match row.data with
  | Serialized.corrupt => Option.none
  | Serialized.good data =>
    match row.tags with
    | some TagsText.corrupt => Option.none
    | some (TagsText.goodTags ts) =>
      (make_message data "publish" ts "" "" false nowIso).toOption
    | Option.none =>
      (make_message data "publish" [] "" "" false nowIso).toOption

/-- The `while processed < total_count` loop of
`Client.process_offline_messages` (lines 537-581), with the loop measure made
explicit as `fuel`: fetch a page of at most 50 active rows, decode them
(every page row's id lands in `message_ids_to_delete`, decodable or not),
dispatch the decodable ones through `_publish_messages`, and — in the same
`try` — delete the page's ids and advance `processed`; a raised exception
breaks the loop, as do an empty page and a page with nothing decodable. -/
def replay_loop (stream : Nat → HttpOutcome) (nowIso : String) (now : Int)
    (total : Nat) (fuel : Nat) (processed : Nat) (s : SQLiteStorage)
    (idx : Nat) : SQLiteStorage × Nat :=
  match fuel with
  | 0 => (s, idx)
  | fuel' + 1 =>
    if processed < total then
      let stored := s.get_all_messages (some 50) now
      if stored.isEmpty then (s, idx)
      else
        let to_send := stored.filterMap (fun row => decodeRow row nowIso)
        let to_delete := stored.map (fun row => row.id)
        if !to_send.isEmpty then
          match publish_messages_api stream idx to_send with
          | Except.ok idx' =>
            replay_loop stream nowIso now total fuel'
              (processed + to_send.length) (s.delete_messages to_delete) idx'
          | Except.error _ => (s, idx)
        else
          if !to_delete.isEmpty then (s.delete_messages to_delete, idx)
          else (s, idx)
    else (s, idx)

/-- Method `Client.process_offline_messages` (lines 520-584 of
`src/tendrl/client.py`), api mode with offline storage enabled: count the
active rows, then run the paged replay loop.  Returns the storage left
behind and the next transport-stream index. -/
def process_offline_messages (stream : Nat → HttpOutcome) (idx : Nat)
    (s : SQLiteStorage) (nowIso : String) (now : Int) : SQLiteStorage × Nat :=
  let total := s.get_message_count now
  if total == 0 then (s, idx)
  else replay_loop stream nowIso now total (total + 1) 0 s idx

/-- The offline-persistence step of `Client._run_sender` (lines 459-468 of
`src/tendrl/client.py`), run for each drained message when the cached
connection state is false:
`self.storage.store(msg_id, message.get('data', \x7b\x7d),
tags=message.get('tags'), ttl=3600)`.  The `tags` argument is the message's
top-level `tags` value — `None` when the key is absent. -/
def run_sender_store_offline (st : SQLiteStorage) (msg_id : String)
    (message : List (String × PyVal)) (now : Int) :
    Except Unit SQLiteStorage :=
  let tagsArg : Option (List PyVal) :=
    match lookupKV message "tags" with
    | some (PyVal.list ts) => some ts
    | some _ => some []
    | Option.none => Option.none
  st.store msg_id (getKV message "data" (PyVal.dict [])) tagsArg 3600 now

/-- One message to be stored offline: the arguments of one
`SQLiteStorage.store` call. -/
structure OfflineEntry where
  id : String
  data : PyVal
  tags : Option (List PyVal)
  ttl : Int

/-- The row `SQLiteStorage.store` appends for an entry at time `now`. -/
def entryRow (now : Int) (e : OfflineEntry) : StoredRow :=
  { id := e.id, data := Serialized.good e.data,
    tags :=
      match e.tags with
      | some ts => if ts.isEmpty then Option.none else some (TagsText.goodTags ts)
      | Option.none => Option.none,
    expires_at := now + e.ttl }

/-- Store a list of messages one after the other, as a client that calls
`SQLiteStorage.store` N times does; the first raised `IntegrityError`
propagates. -/
def storeAll (s : SQLiteStorage) (es : List OfflineEntry) (now : Int) :
    Except Unit SQLiteStorage :=
  match es with
  | [] => Except.ok s
  | e :: rest =>
    match s.store e.id e.data e.tags e.ttl now with
    | Except.ok s' => storeAll s' rest now
    | Except.error u => Except.error u

/-! ## Helper lemmas -/

/-- A blocking `Queue.put` never raises `queue.Full`. -/
theorem put_call_never_raises (q : MsgQueue) (item : List (String × PyVal)) :
    q.put_call item ≠ PutOutcome.raisedFull := by
  unfold MsgQueue.put_call
  split <;> simp

/-- Looking a key up in a filtered association list finds nothing when no
pair of the base list carries that key. -/
theorem lookupKV_filter_of_not_mem (l : List (String × PyVal))
    (p : String × PyVal → Bool) (k : String)
    (h : ∀ kv ∈ l, (kv.1 == k) = false) :
    lookupKV (l.filter p) k = Option.none := by
  induction l with
  | nil => rfl
  | cons a l ih =>
    have ha := h a (by simp)
    have ih' := ih (fun kv hkv => h kv (by simp [hkv]))
    unfold lookupKV at ih' ⊢
    by_cases hp : p a = true
    · simp [List.filter_cons, hp, List.find?, ha]
      simpa [lookupKV] using ih'
    · simp only [List.filter_cons, hp]
      simpa [hp] using ih'

/-- Filtering then looking up skips a head pair whose key differs. -/
theorem lookupKV_filter_cons_ne (a : String × PyVal) (l : List (String × PyVal))
    (p : String × PyVal → Bool) (k : String) (h : (a.1 == k) = false) :
    lookupKV ((a :: l).filter p) k = lookupKV (l.filter p) k := by
  by_cases hp : p a = true <;>
    simp [List.filter_cons, hp, lookupKV, List.find?, h]

/-- Filtering then looking up resolves at a head pair with the right key. -/
theorem lookupKV_filter_cons_eq (a : String × PyVal) (l : List (String × PyVal))
    (p : String × PyVal → Bool) (k : String) (h : (a.1 == k) = true) :
    lookupKV ((a :: l).filter p) k =
      if p a then some a.2 else lookupKV (l.filter p) k := by
  by_cases hp : p a = true <;>
    simp [List.filter_cons, hp, lookupKV, List.find?, h]

/-- Python's `int()` agrees with `floor` on non-negative arguments. -/
theorem pyInt_eq_floor_of_nonneg (x : ℚ) (h : 0 ≤ x) : pyInt x = ⌊x⌋ :=
  if_pos h

/-- A `store` whose id is fresh succeeds and appends the entry's row. -/
theorem store_ok (s : SQLiteStorage) (msg_id : String) (data : PyVal)
    (tags : Option (List PyVal)) (ttl : Int) (now : Int)
    (h : (s.rows.any fun r => r.id == msg_id) = false) :
    s.store msg_id data tags ttl now
      = Except.ok ⟨s.rows ++ [entryRow now ⟨msg_id, data, tags, ttl⟩]⟩ := by
  unfold SQLiteStorage.store entryRow
  simp [h]

/-- Storing entries whose ids are fresh and mutually distinct succeeds and
appends one row per entry, in order. -/
theorem storeAll_ok (es : List OfflineEntry) (s : SQLiteStorage) (now : Int)
    (hfresh : ∀ e ∈ es, ∀ r ∈ s.rows, (r.id == e.id) = false)
    (hnodup : (es.map OfflineEntry.id).Nodup) :
    storeAll s es now = Except.ok ⟨s.rows ++ es.map (entryRow now)⟩ := by
  induction es generalizing s with
  | nil => simp [storeAll]
  | cons e rest ih =>
    have hany : (s.rows.any fun r => r.id == e.id) = false := by
      rw [List.any_eq_false]
      intro r hr
      simp [hfresh e (by simp) r hr]
    rw [List.map_cons, List.nodup_cons] at hnodup
    have hfresh' : ∀ e' ∈ rest, ∀ r ∈ s.rows ++ [entryRow now e],
        (r.id == e'.id) = false := by
      intro e' he' r hr
      rcases List.mem_append.mp hr with hr | hr
      · exact hfresh e' (by simp [he']) r hr
      · simp only [List.mem_singleton] at hr
        subst hr
        rcases Bool.eq_false_or_eq_true ((entryRow now e).id == e'.id)
          with h1 | h1
        · exact absurd (by
            have h2 : e.id = e'.id := by simpa [entryRow] using h1
            rw [h2]
            exact List.mem_map_of_mem OfflineEntry.id he') hnodup.1
        · exact h1
    unfold storeAll
    rw [store_ok s e.id e.data e.tags e.ttl now hany]
    show storeAll ⟨s.rows ++ [entryRow now e]⟩ rest now = _
    rw [ih _ hfresh' hnodup.2]
    simp

/-- Helper `_publish_message` returns normally on every transport outcome: the
`except httpx.HTTPError` handler turns the raised error into a return
value. -/
theorem publish_message_api_ok (o : HttpOutcome) :
    ∃ r, publish_message_api o = Except.ok r := by
  cases o with
  | resp status body =>
    cases body with
    | some v =>
      by_cases h : (status == 200) = true
      · exact ⟨PubMsgReturn.json v, by unfold publish_message_api; simp [h]⟩
      · exact ⟨PubMsgReturn.noneVal, by unfold publish_message_api; simp [h]⟩
    | none => exact ⟨_, rfl⟩
  | raisedHttpError => exact ⟨_, rfl⟩

/-- A run of individual `_publish_message` calls raises nothing. -/
theorem publish_each_ok (stream : Nat → HttpOutcome)
    (ms : List (List (String × PyVal))) :
    ∀ idx, ∃ idx', publish_each stream idx ms = Except.ok idx' := by
  induction ms with
  | nil => intro idx; exact ⟨idx, rfl⟩
  | cons m rest ih =>
    intro idx
    obtain ⟨r, hr⟩ := publish_message_api_ok (stream idx)
    unfold publish_each
    rw [hr]
    exact ih (idx + 1)

/-- The batch call (POST plus fallback) raises nothing. -/
theorem publish_batch_call_ok (stream : Nat → HttpOutcome) (idx : Nat)
    (batch : List (List (String × PyVal))) :
    ∃ i, publish_batch_call stream idx batch = Except.ok i := by
  unfold publish_batch_call
  cases stream idx with
  | resp status body => exact ⟨idx + 1, rfl⟩
  | raisedHttpError => exact publish_each_ok stream batch (idx + 1)

/-- Helper `_publish_messages` returns normally whatever the transport does: the
batch POST's exception is caught by `except Exception` and answered with
per-message fallback calls that swallow their own errors. -/
theorem publish_messages_api_ok (stream : Nat → HttpOutcome) (idx : Nat)
    (ms : List (List (String × PyVal))) :
    ∃ idx', publish_messages_api stream idx ms = Except.ok idx' := by
  unfold publish_messages_api
  by_cases h0 : ms.isEmpty = true
  · rw [if_pos h0]; exact ⟨idx, rfl⟩
  · rw [if_neg h0]
    by_cases hb : (ms.filter (fun m => !contextHasWait m)).isEmpty = true
    · rw [if_pos hb]
      exact publish_each_ok stream (ms.filter contextHasWait) idx
    · rw [if_neg hb]
      obtain ⟨i, hi⟩ := publish_batch_call_ok stream idx
        (ms.filter (fun m => !contextHasWait m))
      rw [hi]
      exact publish_each_ok stream (ms.filter contextHasWait) i

/-! ## Claim theorems -/

/-- C9: `check_connection_state` answers `false` on every failing probe —
socket error, connection error, timeout or any other exception — and, being
a plain boolean-valued function of the probe outcome, propagates no exception
to its caller. -/
theorem check_connection_state_false_on_failure (e : ExnKind) :
    check_connection_state (ProbeOutcome.raised e) = false := rfl

/-- C2 (code bug): at a queue of capacity 2 already holding 2 messages, a
valid `publish` with `wait_response = false` outside headless mode ends in
the blocking-put state — `queue.put(message)` blocks forever — instead of
raising the capacity error the spec asks for; indeed the blocking put the
code calls can never raise `queue.Full`, while the non-blocking put the spec
describes raises it right there. -/
theorem publish_full_queue_blocks :
    publish { items := [[("data", PyVal.str "a")], [("data", PyVal.str "b")]],
              maxsize := 2 }
        false (PyVal.str "x") [] "" false "2024-01-01T00:00:00.000+00:00"
      = PublishResult.blockedOnFullQueue
    ∧ MsgQueue.put_nowait
        { items := [[("data", PyVal.str "a")], [("data", PyVal.str "b")]],
          maxsize := 2 } [("data", PyVal.str "x")]
      = PutOutcome.raisedFull
    ∧ ∀ (q : MsgQueue) (item : List (String × PyVal)),
        q.put_call item ≠ PutOutcome.raisedFull := by
  refine ⟨rfl, rfl, ?_⟩
  intro q item
  unfold MsgQueue.put_call
  split <;> simp

/-- C5 (code bug): with a queue of capacity 2 already holding 2 messages,
`write_offline = true` and an empty offline store, a `tether`-wrapped
producer's enqueue does not fail with `queue.Full` — the blocking
`queue.put` blocks forever — so the `except QueueFull` fallback never runs
and the payload is never written to the offline store; the wrapped call
never returns. -/
theorem tether_full_queue_blocks :
    tether_wrapped
        { items := [[("data", PyVal.str "a")], [("data", PyVal.str "b")]],
          maxsize := 2 }
        (some emptyStorage) true 3600 [PyVal.str "t1"]
        (PyVal.dict [("v", PyVal.int 7)]) "2024-01-01T00:00:00.000+00:00" 50
        "1700000000.0"
      = TetherResult.blockedOnFullQueue := rfl

/-- C4: whatever record `make_message` returns, no key of it is bound to an
empty or falsy value — empty strings, empty mappings, empty lists, `None` and
false-valued fields are omitted entirely. -/
theorem make_message_no_falsy_fields
    (data : PyVal) (msg_type : String) (tags : List PyVal) (entity : String)
    (timestamp : String) (wait_response : Bool) (nowIso : String)
    (m : List (String × PyVal))
    (h : make_message data msg_type tags entity timestamp wait_response nowIso
         = Except.ok m) :
    ∀ kv ∈ m, truthy kv.2 = true := by
  unfold make_message at h
  split at h
  · exact absurd h (by simp)
  split at h
  · exact absurd h (by simp)
  simp only [Except.ok.injEq] at h
  subst h
  intro kv hkv
  exact (List.mem_filter.mp hkv).2

/-- Witness for C4 at a concrete call and a concrete field of its result. -/
theorem make_message_no_falsy_fields_witness :
    truthy (PyVal.str "hello") = true :=
  make_message_no_falsy_fields (PyVal.str "hello") "publish" [] "" "" false
    "2024-01-01T00:00:00.000+00:00"
    [("msg_type", PyVal.str "publish"), ("data", PyVal.str "hello"),
     ("timestamp", PyVal.str "2024-01-01T00:00:00.000+00:00")] rfl
    ("data", PyVal.str "hello") (by simp)

/-- C7: the record `make_message` returns carries `wait = true` in its
`context` exactly when `wait_response` was requested and no explicit `entity`
destination was given; with an entity given or `wait_response` false, no
`wait` key is present in the context. -/
theorem make_message_wait_iff
    (data : PyVal) (msg_type : String) (tags : List PyVal) (entity : String)
    (timestamp : String) (wait_response : Bool) (nowIso : String)
    (m : List (String × PyVal))
    (h : make_message data msg_type tags entity timestamp wait_response nowIso
         = Except.ok m) :
    contextHasWait m = (wait_response && entity == "") := by
  unfold make_message at h
  split at h
  · exact absurd h (by simp)
  split at h
  · exact absurd h (by simp)
  simp only [Except.ok.injEq] at h
  subst h
  unfold contextHasWait
  rw [lookupKV_filter_cons_ne _ _ _ _ (by rfl),
      lookupKV_filter_cons_ne _ _ _ _ (by rfl),
      lookupKV_filter_cons_eq _ _ _ _ (by rfl)]
  have hrest : lookupKV
      (List.filter (fun kv => truthy kv.2)
        [("dest", PyVal.str entity),
         ("timestamp", PyVal.str (if (timestamp == "") = true then nowIso
                                  else timestamp))]) "context" = Option.none := by
    apply lookupKV_filter_of_not_mem
    intro kv hkv
    simp only [List.mem_cons, List.not_mem_nil, or_false] at hkv
    rcases hkv with h1 | h1 <;> subst h1 <;> rfl
  by_cases hw : wait_response <;> by_cases he : entity == "" <;>
    by_cases ht : tags.isEmpty <;>
      simp [hw, he, ht, truthy, hrest, lookupKV, List.find?]

/-- Witness for C7 at a concrete call. -/
theorem make_message_wait_iff_witness :
    contextHasWait
      [("msg_type", PyVal.str "publish"), ("data", PyVal.str "x"),
       ("context", PyVal.dict [("wait", PyVal.bool true)]),
       ("timestamp", PyVal.str "2024-01-01T00:00:00.000+00:00")]
      = (true && (("" : String) == "")) :=
  make_message_wait_iff (PyVal.str "x") "publish" [] "" ""
    true "2024-01-01T00:00:00.000+00:00" _ rfl

/-- C8: for a payload that is neither a text string nor a structured
mapping, or a tag list containing a non-string element, `publish` raises a
validation error synchronously to the caller — the result is one of the two
raised-error outcomes, so nothing is enqueued or dispatched. -/
theorem publish_invalid_input_raises
    (q : MsgQueue) (headless : Bool) (msg : PyVal) (tags : List PyVal)
    (entity : String) (wait_response : Bool) (nowIso : String)
    (h : isStrOrDict msg = false ∨ ∃ t ∈ tags, isStr t = false) :
    publish q headless msg tags entity wait_response nowIso
        = PublishResult.raisedValueError ∨
    publish q headless msg tags entity wait_response nowIso
        = PublishResult.raisedTypeError MsgError.tagsTypeError := by
  by_cases hm : isStrOrDict msg = true
  · rcases h with h | ⟨t, ht, hts⟩
    · rw [hm] at h; exact absurd h (by simp)
    · right
      have h1 : tags.isEmpty = false := by
        cases tags with
        | nil => exact absurd ht (List.not_mem_nil t)
        | cons a l => rfl
      have h2 : tags.all isStr = false := by
        rcases Bool.eq_false_or_eq_true (tags.all isStr) with h2 | h2
        · exact absurd ((List.all_eq_true.mp h2) t ht)
            (by rw [hts]; exact Bool.false_ne_true)
        · exact h2
      unfold publish make_message
      rw [hm]
      simp [h1, h2]
  · left
    have hm' : isStrOrDict msg = false := Bool.eq_false_iff.mpr hm
    unfold publish
    rw [hm']
    simp

/-- Witness for C8 at a concrete call: an integer payload is rejected. -/
theorem publish_invalid_input_raises_witness :
    publish { items := [], maxsize := 10 } false (PyVal.int 3) [] "" false
        "2024-01-01T00:00:00.000+00:00"
        = PublishResult.raisedValueError ∨
    publish { items := [], maxsize := 10 } false (PyVal.int 3) [] "" false
        "2024-01-01T00:00:00.000+00:00"
        = PublishResult.raisedTypeError MsgError.tagsTypeError :=
  publish_invalid_input_raises { items := [], maxsize := 10 } false
    (PyVal.int 3) [] "" false "2024-01-01T00:00:00.000+00:00" (Or.inl rfl)

/-- C10: a message formatted by `make_message` never carries a top-level
`tags` key (tags live only under `context`), so when the scheduler's offline
branch persists it with `tags=message.get('tags')` the stored row's tags
column is NULL, whatever tags the message was published with. -/
theorem run_sender_offline_tags_null
    (data : PyVal) (msg_type : String) (tags : List PyVal) (entity : String)
    (timestamp : String) (wait_response : Bool) (nowIso : String)
    (m : List (String × PyVal))
    (h : make_message data msg_type tags entity timestamp wait_response nowIso
         = Except.ok m)
    (st : SQLiteStorage) (msg_id : String) (now : Int) (st' : SQLiteStorage)
    (hs : run_sender_store_offline st msg_id m now = Except.ok st') :
    lookupKV m "tags" = Option.none ∧
    ∃ r : StoredRow, st'.rows = st.rows ++ [r] ∧ r.tags = Option.none := by
  have h0 : lookupKV m "tags" = Option.none := by
    unfold make_message at h
    split at h
    · exact absurd h (by simp)
    split at h
    · exact absurd h (by simp)
    simp only [Except.ok.injEq] at h
    subst h
    apply lookupKV_filter_of_not_mem
    intro kv hkv
    simp only [List.mem_cons, List.not_mem_nil, or_false] at hkv
    rcases hkv with h1 | h1 | h1 | h1 | h1 <;> subst h1 <;> rfl
  refine ⟨h0, ?_⟩
  unfold run_sender_store_offline at hs
  simp only [h0] at hs
  unfold SQLiteStorage.store at hs
  split at hs
  · exact absurd hs (by simp)
  · simp only [Except.ok.injEq] at hs
    subst hs
    exact ⟨_, rfl, rfl⟩

/-- Witness for C10 at a concrete call: a message published with tag "a"
is persisted with a NULL tags column. -/
theorem run_sender_offline_tags_null_witness :
    lookupKV
      [("msg_type", PyVal.str "publish"), ("data", PyVal.dict [("v", PyVal.int 1)]),
       ("context", PyVal.dict [("tags", PyVal.list [PyVal.str "a"])]),
       ("timestamp", PyVal.str "2024-01-01T00:00:00.000+00:00")] "tags"
      = Option.none ∧
    ∃ r : StoredRow,
      ({ rows := [{ id := "offline_1", data := Serialized.good (PyVal.dict [("v", PyVal.int 1)]),
                    tags := Option.none, expires_at := 3600 }] } : SQLiteStorage).rows
        = emptyStorage.rows ++ [r] ∧ r.tags = Option.none :=
  run_sender_offline_tags_null (PyVal.dict [("v", PyVal.int 1)]) "publish"
    [PyVal.str "a"] "" "" false "2024-01-01T00:00:00.000+00:00" _ rfl
    emptyStorage "offline_1" 0 _ rfl

/-- C3: with non-negative metrics, positive targets and batch bounds
`0 ≤ minB ≤ maxB`, the calculated batch size is always within
`[minB, maxB]`; it equals `maxB` exactly on the idle fast path
(`cpu < 30 ∧ mem < 30 ∧ qload < 25`); otherwise it equals the spec's
`clamp(floor(maxB * resourceFactor), minB, maxB)` formula; and the spec's
worked example `cpu=80, mem=80, qload=90`, targets `65/75`, bounds `10/100`
yields `10`. -/
theorem calculate_dynamic_batch_size_props
    (cpu mem qload targetCpu targetMem : ℚ) (minB maxB : ℤ)
    (hc : 0 ≤ cpu) (hm : 0 ≤ mem) (hq : 0 ≤ qload)
    (htc : 0 < targetCpu) (htm : 0 < targetMem)
    (hmin : 0 ≤ minB) (hb : minB ≤ maxB) :
    (minB ≤ calculate_dynamic_batch_size cpu mem qload targetCpu targetMem minB maxB ∧
     calculate_dynamic_batch_size cpu mem qload targetCpu targetMem minB maxB ≤ maxB) ∧
    ((cpu < 30 ∧ mem < 30 ∧ qload < 25) →
      calculate_dynamic_batch_size cpu mem qload targetCpu targetMem minB maxB = maxB) ∧
    (¬(cpu < 30 ∧ mem < 30 ∧ qload < 25) →
      calculate_dynamic_batch_size cpu mem qload targetCpu targetMem minB maxB =
        spec_batch_size_formula cpu mem qload targetCpu targetMem minB maxB) ∧
    calculate_dynamic_batch_size 80 80 90 65 75 10 100 = 10 := by
  have hrf : (0:ℚ) ≤
      max 0 (1 - (cpu / targetCpu) ^ 2) * (if cpu > 50 then (1:ℚ)/2 else 2/5) +
      max 0 (1 - (mem / targetMem) ^ 2) * (if mem > 50 then (1:ℚ)/2 else 2/5) +
      min 1 (qload / 100) * (if cpu + mem + qload < 150 then (1:ℚ)/5 else 1/10) := by
    have hw1 : (0:ℚ) ≤ (if cpu > 50 then (1:ℚ)/2 else 2/5) := by
      split_ifs <;> norm_num
    have hw2 : (0:ℚ) ≤ (if mem > 50 then (1:ℚ)/2 else 2/5) := by
      split_ifs <;> norm_num
    have hw3 : (0:ℚ) ≤ (if cpu + mem + qload < 150 then (1:ℚ)/5 else 1/10) := by
      split_ifs <;> norm_num
    have hq0 : (0:ℚ) ≤ min 1 (qload / 100) :=
      le_min (by norm_num) (by positivity)
    exact add_nonneg
      (add_nonneg (mul_nonneg (le_max_left _ _) hw1)
        (mul_nonneg (le_max_left _ _) hw2))
      (mul_nonneg hq0 hw3)
  refine ⟨?_, ?_, ?_, ?_⟩
  · by_cases hidle : cpu < 30 ∧ mem < 30 ∧ qload < 25
    · simp only [calculate_dynamic_batch_size, if_pos hidle]
      exact ⟨hb, le_refl maxB⟩
    · simp only [calculate_dynamic_batch_size, if_neg hidle]
      exact ⟨le_max_left _ _, max_le hb (min_le_right _ _)⟩
  · intro hidle
    simp only [calculate_dynamic_batch_size, if_pos hidle]
  · intro hnid
    simp only [calculate_dynamic_batch_size, spec_batch_size_formula,
      if_neg hnid]
    have hmB : (0:ℚ) ≤ (maxB : ℚ) := by exact_mod_cast le_trans hmin hb
    rw [pyInt_eq_floor_of_nonneg _ (mul_nonneg hmB hrf)]
  · unfold calculate_dynamic_batch_size pyInt
    norm_num

/-- Witness for C3 at the spec's worked example. -/
theorem calculate_dynamic_batch_size_props_witness :
    (10 ≤ calculate_dynamic_batch_size 80 80 90 65 75 10 100 ∧
     calculate_dynamic_batch_size 80 80 90 65 75 10 100 ≤ 100) ∧
    (((80:ℚ) < 30 ∧ (80:ℚ) < 30 ∧ (90:ℚ) < 25) →
      calculate_dynamic_batch_size 80 80 90 65 75 10 100 = 100) ∧
    (¬((80:ℚ) < 30 ∧ (80:ℚ) < 30 ∧ (90:ℚ) < 25) →
      calculate_dynamic_batch_size 80 80 90 65 75 10 100 =
        spec_batch_size_formula 80 80 90 65 75 10 100) ∧
    calculate_dynamic_batch_size 80 80 90 65 75 10 100 = 10 :=
  calculate_dynamic_batch_size_props 80 80 90 65 75 10 100
    (by norm_num) (by norm_num) (by norm_num) (by norm_num) (by norm_num)
    (by norm_num) (by norm_num)

/-- C6: storing N messages with distinct ids and positive ttl into an empty
store succeeds; listing active entries at store time returns exactly those N
rows (a permutation of them, N in number); once every row is past its
`expires_at`, `cleanup_expired` removes exactly those N rows and returns N,
after which the count is 0 and the listing is empty. -/
theorem offline_store_roundtrip (es : List OfflineEntry) (now t1 : Int)
    (hids : (es.map OfflineEntry.id).Nodup)
    (httl : ∀ e ∈ es, 0 < e.ttl)
    (ht1 : ∀ e ∈ es, now + e.ttl < t1) :
    ∃ s : SQLiteStorage,
      storeAll emptyStorage es now = Except.ok s ∧
      (s.get_all_messages Option.none now).Perm (es.map (entryRow now)) ∧
      (s.get_all_messages Option.none now).length = es.length ∧
      (s.cleanup_expired t1).1 = es.length ∧
      (s.cleanup_expired t1).2.get_message_count t1 = 0 ∧
      (s.cleanup_expired t1).2.get_all_messages Option.none t1 = [] := by
  have hstore := storeAll_ok es emptyStorage now
    (by intro e he r hr; cases hr) hids
  have hfa : (es.map (entryRow now)).filter (fun r => now ≤ r.expires_at)
      = es.map (entryRow now) := by
    apply List.filter_eq_self.mpr
    intro r hr
    rcases List.mem_map.mp hr with ⟨e, he, rfl⟩
    simpa [entryRow] using le_of_lt (lt_add_of_pos_right now (httl e he))
  have hget : (⟨es.map (entryRow now)⟩ : SQLiteStorage).get_all_messages
        Option.none now
      = (es.map (entryRow now)).mergeSort (fun a b => a.id ≤ b.id) := by
    unfold SQLiteStorage.get_all_messages
    rw [hfa]
  have hfd : (es.map (entryRow now)).filter (fun r => r.expires_at < t1)
      = es.map (entryRow now) := by
    apply List.filter_eq_self.mpr
    intro r hr
    rcases List.mem_map.mp hr with ⟨e, he, rfl⟩
    simpa [entryRow] using ht1 e he
  have hfk : (es.map (entryRow now)).filter (fun r => !(r.expires_at < t1))
      = [] := by
    apply List.filter_eq_nil_iff.mpr
    intro r hr
    rcases List.mem_map.mp hr with ⟨e, he, rfl⟩
    simpa [entryRow] using ht1 e he
  have hcl : (⟨es.map (entryRow now)⟩ : SQLiteStorage).cleanup_expired t1
      = (es.length, ⟨[]⟩) := by
    unfold SQLiteStorage.cleanup_expired
    rw [hfd, hfk]
    simp
  refine ⟨⟨es.map (entryRow now)⟩, by simpa using hstore, ?_, ?_, ?_, ?_, ?_⟩
  · rw [hget]
    exact List.mergeSort_perm _ _
  · rw [hget, (List.mergeSort_perm (es.map (entryRow now))
      (fun a b => a.id ≤ b.id)).length_eq]
    exact List.length_map es (entryRow now)
  · rw [hcl]
  · rw [hcl]
    rfl
  · rw [hcl]
    simp [SQLiteStorage.get_all_messages]

/-- Witness for C6 at two concrete entries. -/
theorem offline_store_roundtrip_witness :
    ∃ s : SQLiteStorage,
      storeAll emptyStorage
        [{ id := "a", data := PyVal.dict [("x", PyVal.int 1)],
           tags := Option.none, ttl := 100 },
         { id := "b", data := PyVal.str "hello",
           tags := some [PyVal.str "t"], ttl := 200 }] 0 = Except.ok s ∧
      (s.get_all_messages Option.none 0).Perm
        ([{ id := "a", data := PyVal.dict [("x", PyVal.int 1)],
            tags := Option.none, ttl := 100 },
          { id := "b", data := PyVal.str "hello",
            tags := some [PyVal.str "t"], ttl := 200 }].map (entryRow 0)) ∧
      (s.get_all_messages Option.none 0).length = 2 ∧
      (s.cleanup_expired 1000).1 = 2 ∧
      (s.cleanup_expired 1000).2.get_message_count 1000 = 0 ∧
      (s.cleanup_expired 1000).2.get_all_messages Option.none 1000 = [] :=
  offline_store_roundtrip
    [{ id := "a", data := PyVal.dict [("x", PyVal.int 1)],
       tags := Option.none, ttl := 100 },
     { id := "b", data := PyVal.str "hello",
       tags := some [PyVal.str "t"], ttl := 200 }] 0 1000
    (by simp) (by intro e he; fin_cases he <;> norm_num)
    (by intro e he; fin_cases he <;> norm_num)

/-- C1 (code bug): with one active stored row and a transport on which every
HTTP call raises `httpx.HTTPError`, `process_offline_messages` nevertheless
deletes the row and loses the message: `_publish_messages` catches every
transport failure and returns normally (second conjunct: it returns `ok` for
every transport stream), so the `except` guard meant to stop the replay
without deleting never fires — against the code's own comment
`Only delete messages if they were sent successfully` and the claimed
stop-without-deleting behaviour. -/
theorem replay_deletes_despite_dispatch_failure :
    ((process_offline_messages (fun _ => HttpOutcome.raisedHttpError) 0
        { rows := [{ id := "m1",
                     data := Serialized.good (PyVal.dict [("k", PyVal.int 1)]),
                     tags := Option.none, expires_at := 100 }] }
        "2024-01-01T00:00:00.000+00:00" 50).1).rows = []
    ∧ ∀ (stream : Nat → HttpOutcome) (idx : Nat)
        (ms : List (List (String × PyVal))),
        ∃ idx', publish_messages_api stream idx ms = Except.ok idx' := by
  constructor
  · simp +decide [process_offline_messages, SQLiteStorage.get_message_count,
      replay_loop, SQLiteStorage.get_all_messages, List.mergeSort_singleton,
      decodeRow, make_message, truthy, isStrOrDict, publish_messages_api,
      publish_batch_call, publish_each, publish_message_api, contextHasWait,
      lookupKV, SQLiteStorage.delete_messages, List.filterMap_cons,
      List.filter_cons]
    split
    · rfl
    · rename_i h
      split at h <;> simp_all
  · exact publish_messages_api_ok

end Tendrl
